import Mathlib

/-!
Shallow embedding of `src/project.py`: a stop-and-wait ARQ sender/receiver
pair over a simulated lossy channel, together with theorems checking the
specification's claims against it.

Modelling conventions:
* byte strings are `List ℕ` (one entry per byte);
* the channel and the clock form an environment trace: each iteration of
  the sender's ACK-wait loop consumes one `SEvent` (the bytes returned by
  `sock.recv` together with the elapsed time `time.time() - start_time`,
  or a `socket.timeout` with the elapsed time at which it fired), and the
  receiver's loop consumes `REvent`s;
* Python floats (RTT samples, timeouts) are modelled as exact rationals;
* the module-level global `queue` (project.py line 19) is threaded
  explicitly: `send` receives the queue left behind by previous calls and
  returns the queue as it stands afterwards;
* a `struct.error` escaping a function (none of the
  `except socket.timeout` / `except socket.error` clauses catches it) is
  modelled as an explicit error result that stops the interpretation.
-/

namespace SimTCP

/-- Constant `DATA_PACKET = 0` (project.py line 17). -/
def DATA_PACKET : ℕ := 0

/-- Constant `ACK_P = 1` (project.py line 18). -/
def ACK_P : ℕ := 1

/-- One big-endian 16-bit field of `struct.pack("!HH", ...)`. -/
def pack16 (v : ℕ) : List ℕ := [v / 256 % 256, v % 256]

/-- `struct.pack("!HH", t, s)`: the 4-byte packet header. -/
def packHH (t s : ℕ) : List ℕ := pack16 t ++ pack16 s

/-- `struct.unpack("!HH", b)`: succeeds on exactly 4 bytes, otherwise
raises `struct.error` (modelled as `none`). -/
def unpackHH : List ℕ → Option (ℕ × ℕ)
  | [a, b, c, d] => some (a * 256 + b, c * 256 + d)
  | _ => none

/-- Python `range(0, n, step)` for `step ≥ 1`. -/
def pyRange (n step : ℕ) : List ℕ :=
  (List.range ((n + step - 1) / step)).map (· * step)

/-- The chunk list built by `send` (lines 33 and 38): offsets advance by
`util.MAX_PACKET - 4`, but each slice is `data[i:i + util.MAX_PACKET]`. -/
def sendChunks (MAX : ℕ) (data : List ℕ) : List (List ℕ) :=
  (pyRange data.length (MAX - 4)).map fun i => (data.drop i).take MAX

/-- One iteration of the sender's ACK-wait loop as seen from the
environment: `sock.recv` returned `ack` after `elapsed` seconds, or the
receive timed out with `elapsed` seconds on the wait clock. -/
inductive SEvent where
  | recvd (ack : List ℕ) (elapsed : ℚ)
  | timeout (elapsed : ℚ)
deriving DecidableEq, Repr

/-- `pandas.Series(xs).ewm(alpha, adjust=True).mean()` as a list, with
`β = 1 - alpha`: entry `t` is
`(Σ i ≤ t, β^i * x (t-i)) / (Σ i ≤ t, β^i)`, accumulated recursively. -/
def ewmAux (β : ℚ) (num den : ℚ) : List ℚ → List ℚ
  | [] => []
  | x :: xs =>
      let num2 := x + β * num
      let den2 := 1 + β * den
      num2 / den2 :: ewmAux β num2 den2 xs

/-- `round(·, 5)` on an exact rational (ties — absent in every value this
file evaluates — round up). -/
def roundTo5 (x : ℚ) : ℚ := (⌊x * 100000 + 1 / 2⌋ : ℚ) / 100000

/-- `mean(round(pd.Series(q).ewm(alpha=α, adjust=True).mean(), 5).tolist())`:
the value passed to `sock.settimeout` (lines 56–61 and 68–73). -/
def computeTimeout (α : ℚ) (q : List ℚ) : ℚ :=
  let ms := (ewmAux (1 - α) 0 0 q).map roundTo5
  ms.sum / (ms.length : ℚ)

inductive WaitStatus where
  | acked
  | err
  | starved
deriving DecidableEq, Repr

/-- Result of the `while True` ACK-wait loop (lines 45–75): packets
retransmitted during the wait, the final `queue`, the unconsumed events,
how the loop ended (`err` = `struct.error` escaped, `starved` = the trace
ran out mid-wait), and the successive `sock.settimeout` arguments. -/
structure WaitOut where
  resends : List (List ℕ)
  queue : List ℚ
  rest : List SEvent
  status : WaitStatus
  setTimeouts : List ℚ
deriving DecidableEq, Repr

/-- The ACK-wait loop (lines 45–75) for packet `p` with current sequence
number `s`, threading the global `queue`. On a received packet: unpack
(4 bytes exactly, else `struct.error` escapes with the queue untouched),
clear the queue if its length exceeds 5, then test for a matching ACK; a
match appends the elapsed time and re-arms the timeout with `alpha=.3`;
anything else loops. On `socket.timeout`: append the elapsed time, re-arm
with `alpha=1`, resend `p`, loop. -/
def waitAck (p : List ℕ) (s : ℕ) : List ℚ → List SEvent → WaitOut
  | q, [] => ⟨[], q, [], .starved, []⟩
  | q, .recvd a e :: rest =>
      match unpackHH a with
      | none => ⟨[], q, rest, .err, []⟩
      | some (t, sq) =>
          let q1 := if 5 < q.length then [] else q
          if t = ACK_P ∧ sq = s then
            ⟨[], q1 ++ [e], rest, .acked, [computeTimeout (3/10) (q1 ++ [e])]⟩
          else
            waitAck p s q1 rest
  | q, .timeout e :: rest =>
      let w := waitAck p s (q ++ [e]) rest
      ⟨p :: w.resends, w.queue, w.rest, w.status,
        computeTimeout 1 (q ++ [e]) :: w.setTimeouts⟩

inductive SendResult where
  | ok
  | structError
  | starved
deriving DecidableEq, Repr

/-- Outcome of `send`: every packet handed to `sock.send` in order, the
global `queue` afterwards, the successive `settimeout` arguments armed in
the loop, and how the call ended. -/
structure SendOut where
  wire : List (List ℕ)
  queue : List ℚ
  setTimeouts : List ℚ
  result : SendResult
deriving DecidableEq, Repr

/-- The chunk loop of `send` (lines 38–76): for each chunk build
`struct.pack("!HH", DATA_PACKET, s) + chunk`, transmit, run the ACK-wait
loop, and on a matching ACK flip the sequence bit and continue. -/
def sendLoop : ℕ → List ℚ → List SEvent → List (List ℕ) → SendOut
  | _, q, _, [] => ⟨[], q, [], .ok⟩
  | s, q, evs, c :: cs =>
      let p := packHH DATA_PACKET s ++ c
      let w := waitAck p s q evs
      match w.status with
      | .acked =>
          let o := sendLoop (1 - s) w.queue w.rest cs
          ⟨p :: w.resends ++ o.wire, o.queue, w.setTimeouts ++ o.setTimeouts, o.result⟩
      | .err => ⟨p :: w.resends, w.queue, w.setTimeouts, .structError⟩
      | .starved => ⟨p :: w.resends, w.queue, w.setTimeouts, .starved⟩

/-- `send(sock, data)` (lines 22–78), starting at sequence number 0 with
the module-level `queue` in the state `q0` left by earlier calls. -/
def send (MAX : ℕ) (data : List ℕ) (evs : List SEvent) (q0 : List ℚ) : SendOut :=
  sendLoop 0 q0 evs (sendChunks MAX data)

/-- How `recv` handles one nonempty received packet (lines 103–129):
unpack `packet[:4]` (fewer than 4 bytes raises `struct.error`, caught by
no handler), then walk the `if`/`elif` chain. -/
inductive RAction where
  | crash
  | deliver (payload : List ℕ) (ack : List ℕ)
  | ignoreAck
  | resendAck (ack : List ℕ)
  | dropLog
deriving DecidableEq, Repr

/-- The receiver's per-packet conditional chain (lines 103–129). -/
def recvStep (expected : ℕ) (p : List ℕ) : RAction :=
  match unpackHH (p.take 4) with
  | none => .crash
  | some (t, sq) =>
      if t = DATA_PACKET ∧ sq = expected then
        .deliver (p.drop 4) (packHH ACK_P sq)
      else if t = ACK_P then .ignoreAck
      else if sq ≠ expected then .resendAck (packHH ACK_P sq)
      else .dropLog

/-- One iteration of the receiver's loop as seen from the environment:
`sock.recv` returned `packet` (empty = closed channel), timed out, or
raised `socket.error`. -/
inductive REvent where
  | recvd (packet : List ℕ)
  | timeout
  | sockError
deriving DecidableEq, Repr

inductive RecvStatus where
  | returned
  | crashed
  | blocked
deriving DecidableEq, Repr

/-- Outcome of `recv`: bytes counted (`num_bytes`), bytes written to
`dest`, ACK packets handed to `sock.send`, the expected sequence number,
and how the loop ended (`crashed` = `struct.error` escaped, `blocked` =
the trace ran out while the loop would still be receiving). -/
structure RecvOut where
  count : ℕ
  sink : List ℕ
  acks : List (List ℕ)
  expected : ℕ
  status : RecvStatus
deriving DecidableEq, Repr

/-- `recv(sock, dest)` main loop (lines 97–136): an empty read breaks and
returns `num_bytes`; `socket.error` breaks likewise; `socket.timeout` is
logged and the loop continues; otherwise the packet goes through
`recvStep`, with `deliver` writing `packet[4:]`, adding
`len(packet) - 4`, sending an ACK and flipping the expected bit. -/
def recvLoop : ℕ → ℕ → List ℕ → List (List ℕ) → List REvent → RecvOut
  | e, n, sink, acks, [] => ⟨n, sink, acks, e, .blocked⟩
  | e, n, sink, acks, .recvd p :: evs =>
      if p = [] then ⟨n, sink, acks, e, .returned⟩
      else
        match recvStep e p with
        | .crash => ⟨n, sink, acks, e, .crashed⟩
        | .deliver payload ack =>
            recvLoop (1 - e) (n + (p.length - 4)) (sink ++ payload) (acks ++ [ack]) evs
        | .ignoreAck => recvLoop e n sink acks evs
        | .resendAck ack => recvLoop e n sink (acks ++ [ack]) evs
        | .dropLog => recvLoop e n sink acks evs
  | e, n, sink, acks, .timeout :: evs => recvLoop e n sink acks evs
  | e, n, sink, acks, .sockError :: _ => ⟨n, sink, acks, e, .returned⟩

/-- Environment trace of a lossless zero-delay channel for `n` chunks
starting at sequence bit `s`: every wait immediately yields the matching
ACK with zero elapsed time. -/
def losslessTrace : ℕ → ℕ → List SEvent
  | 0, _ => []
  | n + 1, s => .recvd (packHH ACK_P s) 0 :: losslessTrace n (1 - s)

/-- The strictly alternating sequence `s, 1-s, s, …` of length `n`. -/
def altSeqs : ℕ → ℕ → List ℕ
  | 0, _ => []
  | n + 1, s => s :: altSeqs n (1 - s)

/-- `b"hello world"`. -/
def helloWorld : List ℕ := [104, 101, 108, 108, 111, 32, 119, 111, 114, 108, 100]

theorem unpackHH_eq_none : ∀ (l : List ℕ), l.length ≠ 4 → unpackHH l = none
  | [], _ => rfl
  | [_], _ => rfl
  | [_, _], _ => rfl
  | [_, _, _], _ => rfl
  | [_, _, _, _], h => absurd rfl h
  | _ :: _ :: _ :: _ :: _ :: _, _ => rfl

theorem unpackHH_packHH (t s : ℕ) (ht : t < 65536) (hs : s < 65536) :
    unpackHH (packHH t s) = some (t, s) := by
  simp only [packHH, pack16, List.cons_append, List.nil_append, unpackHH,
    Option.some.injEq, Prod.mk.injEq]
  omega

/-- C1: the claim that `send` splits `data` into consecutive,
non-overlapping chunks of at most `MAX_PACKET - 4` bytes with every DATA
packet at most `MAX_PACKET` bytes in total fails on the code. With
`MAX_PACKET = 8` and `data = b"hello world"`, the slice
`data[i:i + util.MAX_PACKET]` (offsets stepping by `MAX_PACKET - 4`)
makes the first chunk 8 bytes long, the last 4 bytes of the first chunk
reappear as the first 4 bytes of the second chunk (overlap), and the
first wire packet is 12 > 8 bytes. -/
theorem C1_chunking_bug :
    (sendChunks 8 helloWorld).map List.length = [8, 7, 3] ∧
    (sendChunks 8 helloWorld).get? 0 = some (helloWorld.take 8) ∧
    ((sendChunks 8 helloWorld).get? 0).map (List.drop 4) =
      ((sendChunks 8 helloWorld).get? 1).map (List.take 4) ∧
    ((sendChunks 8 helloWorld).get? 0).map (List.drop 4) ≠ some [] ∧
    ((send 8 helloWorld (losslessTrace 3 0) []).wire.map List.length) = [12, 11, 7] ∧
    ¬ (12 ≤ 8) := by decide

/-- C2: the round-trip claim fails on the code. With
`B = b"hello world"` and `MAX_PACKET = 8` over a lossless zero-delay
channel, `send` does emit 3 DATA packets with sequence numbers 0, 1, 0,
but their payloads are `b"hello wo"`, `b"o world"`, `b"rld"` — not
`b"hell"`, `b"o wo"`, `b"rld"` — and feeding those packets to `recv`
yields 18 delivered bytes (`b"hello woo worldrld"`), not 11, so the sink
does not equal `B`. -/
theorem C2_roundtrip_bug :
    (send 8 helloWorld (losslessTrace 3 0) []).wire.map (fun p => unpackHH (p.take 4)) =
      [some (DATA_PACKET, 0), some (DATA_PACKET, 1), some (DATA_PACKET, 0)] ∧
    (send 8 helloWorld (losslessTrace 3 0) []).wire.map (List.drop 4) =
      [[104, 101, 108, 108, 111, 32, 119, 111],
       [111, 32, 119, 111, 114, 108, 100],
       [114, 108, 100]] ∧
    (send 8 helloWorld (losslessTrace 3 0) []).wire.map (List.drop 4) ≠
      [[104, 101, 108, 108], [111, 32, 119, 111], [114, 108, 100]] ∧
    (recvLoop 0 0 [] []
        ((send 8 helloWorld (losslessTrace 3 0) []).wire.map REvent.recvd ++
          [REvent.recvd []])).status = RecvStatus.returned ∧
    (recvLoop 0 0 [] []
        ((send 8 helloWorld (losslessTrace 3 0) []).wire.map REvent.recvd ++
          [REvent.recvd []])).count = 18 ∧
    ¬ (recvLoop 0 0 [] []
        ((send 8 helloWorld (losslessTrace 3 0) []).wire.map REvent.recvd ++
          [REvent.recvd []])).count = 11 ∧
    (recvLoop 0 0 [] []
        ((send 8 helloWorld (losslessTrace 3 0) []).wire.map REvent.recvd ++
          [REvent.recvd []])).sink ≠ helloWorld := by decide

/-- C3 counterexample: the RTT history does not start empty at each
`send` invocation and samples do carry over. A first one-chunk transfer
(matching ACK after 1 second) leaves the module queue as `[1]`; a second
one-chunk transfer starting from that queue appends to it, giving history
`[1, 2]`, and arms a timeout different from the one the very same
invocation arms when the history starts empty. -/
theorem C3_counterexample :
    (send 8 [7] [SEvent.recvd (packHH ACK_P 0) 1] []).queue = [1] ∧
    (send 8 [7] [SEvent.recvd (packHH ACK_P 0) 2]
      (send 8 [7] [SEvent.recvd (packHH ACK_P 0) 1] []).queue).queue = [1, 2] ∧
    (send 8 [7] [SEvent.recvd (packHH ACK_P 0) 2]
        (send 8 [7] [SEvent.recvd (packHH ACK_P 0) 1] []).queue).setTimeouts ≠
      (send 8 [7] [SEvent.recvd (packHH ACK_P 0) 2] []).setTimeouts := by
  refine ⟨by decide, by decide, ?_⟩
  norm_num [send, sendChunks, pyRange, sendLoop, waitAck, unpackHH, packHH, pack16,
    ACK_P, DATA_PACKET, computeTimeout, ewmAux, roundTo5]

/-- C4 counterexample: the RTT history is not bounded by the cap of 5
throughout execution. Seven consecutive timeouts (so no packet is ever
received and the `len(queue) > 5` clear check, which sits on the receive
path only, never runs) leave seven samples in the history. -/
theorem C4_counterexample :
    (send 8 [7] (List.replicate 7 (SEvent.timeout 1)) []).queue.length = 7 ∧
    ¬ (7 ≤ 5) := by decide

/-- C3 (amended): the RTT history is module-level state threaded through
`send` invocations. A call starts from whatever history earlier transfers
left behind (here: any history of length ≤ 5, so the `len(queue) > 5`
clear does not fire); the sample of the matching ACK is appended to that
inherited history, and the timeout armed after the ACK is computed from
the combined history, so samples of earlier transfers influence later
transfers' timeouts. -/
theorem C3_amended_carryover (q0 : List ℚ) (e : ℚ) (h : q0.length ≤ 5) :
    (send 8 [7] [SEvent.recvd (packHH ACK_P 0) e] q0).queue = q0 ++ [e] ∧
    (send 8 [7] [SEvent.recvd (packHH ACK_P 0) e] q0).setTimeouts =
      [computeTimeout (3/10) (q0 ++ [e])] := by
  have hq : ¬ 5 < q0.length := by omega
  simp [send, sendChunks, pyRange, sendLoop, waitAck, unpackHH, packHH, pack16,
    ACK_P, DATA_PACKET, hq]

theorem C3_amended_witness :
    ([1] : List ℚ).length ≤ 5 ∧
    ((send 8 [7] [SEvent.recvd (packHH ACK_P 0) 2] [1]).queue = [1] ++ [2] ∧
      (send 8 [7] [SEvent.recvd (packHH ACK_P 0) 2] [1]).setTimeouts =
        [computeTimeout (3/10) ([1] ++ [2])]) :=
  ⟨by decide, C3_amended_carryover [1] 2 (by decide)⟩

/-- The `settimeout` arguments armed by a run of consecutive timeouts. -/
def timeoutVals : List ℚ → ℚ → ℕ → List ℚ
  | _, _, 0 => []
  | q, e, n + 1 => computeTimeout 1 (q ++ [e]) :: timeoutVals (q ++ [e]) e n

theorem waitAck_timeout_run (p : List ℕ) (s : ℕ) (e : ℚ) :
    ∀ (n : ℕ) (q : List ℚ),
      waitAck p s q (List.replicate n (SEvent.timeout e)) =
        ⟨List.replicate n p, q ++ List.replicate n e, [], WaitStatus.starved,
          timeoutVals q e n⟩ := by
  intro n
  induction n with
  | zero => intro q; simp [waitAck, timeoutVals]
  | succ m ih =>
      intro q
      simp [List.replicate_succ, waitAck, timeoutVals, ih (q ++ [e])]

/-- C4 (amended): a sample is appended to the RTT history on every
timeout and on every matching-ACK receipt, and a receive clears the whole
history (not just the excess entries) when its length exceeds 5 — but the
clear check sits only on the receive path, so `n` consecutive timeouts
grow the history to length `n`, unbounded by any constant cap. -/
theorem C4_amended_growth (n : ℕ) (e : ℚ) (q0 : List ℚ) :
    (send 8 [7] (List.replicate n (SEvent.timeout e)) []).queue = List.replicate n e ∧
    (send 8 [7] [SEvent.recvd (packHH ACK_P 0) e] q0).queue =
      (if 5 < q0.length then [] else q0) ++ [e] := by
  constructor
  · simp [send, sendChunks, pyRange, sendLoop, waitAck_timeout_run]
  · by_cases hq : 5 < q0.length
    · simp [send, sendChunks, pyRange, sendLoop, waitAck, unpackHH, packHH, pack16,
        ACK_P, DATA_PACKET, hq]
    · simp [send, sendChunks, pyRange, sendLoop, waitAck, unpackHH, packHH, pack16,
        ACK_P, DATA_PACKET, hq]

/-- C5 counterexample: a received 2-byte packet is passed to
`struct.unpack("!HH", packet[:4])`, which raises `struct.error`; neither
`except socket.timeout` nor `except socket.error` catches it, so `recv`
crashes instead of logging and skipping — the rest of the trace is never
processed. -/
theorem C5_counterexample :
    recvStep 0 [0, 1] = RAction.crash ∧
    recvLoop 0 0 [] [] [REvent.recvd [0, 1], REvent.recvd []] =
      ⟨0, [], [], 0, RecvStatus.crashed⟩ := by decide

/-- C6 counterexample: while `send` waits for an ACK, received content of
length ≠ 4 (here 2 bytes) fails `struct.unpack("!HH", ack)` and the
`struct.error` escapes both `except` clauses, so `send` raises rather
than treating the malformed bytes as a no-op. -/
theorem C6_counterexample :
    (send 8 [7] [SEvent.recvd [0, 1] 1] []).result = SendResult.structError := by decide

/-- C7 counterexample: a packet whose type field is 2 (neither DATA = 0
nor ACK = 1) with sequence number 1 while the receiver expects 0 is not
dropped silently: the `elif sequence_number != expected` branch fires and
`recv` sends an ACK carrying sequence number 1 on the channel. -/
theorem C7_counterexample :
    unpackHH (packHH 2 1) = some (2, 1) ∧ (2 : ℕ) ≠ DATA_PACKET ∧ (2 : ℕ) ≠ ACK_P ∧
    (recvLoop 0 0 [] [] [REvent.recvd (packHH 2 1), REvent.recvd []]).acks =
      [packHH ACK_P 1] := by decide

/-- C8 counterexample: the final `else` branch is reachable — the packet
`[0, 2, 0, 0]` (type 2, sequence number 0) decodes fine, fails the DATA
test (type ≠ 0), fails the ACK test (type ≠ 1), fails the
`sequence_number != expected` test (0 = 0), and falls into the final
`else`. -/
theorem C8_counterexample :
    unpackHH ([0, 2, 0, 0] : List ℕ) = some (2, 0) ∧
    recvStep 0 [0, 2, 0, 0] = RAction.dropLog := by decide

/-- C5 (amended): for every nonempty received packet shorter than 4
bytes, `recv` passes it to `struct.unpack("!HH", packet[:4])`, which
fails; the resulting `struct.error` matches neither `except` clause, so
`recv` terminates abnormally with the packet neither logged-and-skipped
nor delivered, and the loop does not continue. (An empty read is the one
short read that is handled: it ends the loop normally.) -/
theorem C5_amended_short_crash (p : List ℕ) (e n : ℕ) (sink : List ℕ)
    (acks : List (List ℕ)) (evs : List REvent) (hne : p ≠ []) (hlen : p.length < 4) :
    recvStep e p = RAction.crash ∧
    recvLoop e n sink acks (REvent.recvd p :: evs) = ⟨n, sink, acks, e, RecvStatus.crashed⟩ := by
  have h4 : unpackHH (p.take 4) = none := by
    apply unpackHH_eq_none
    simp only [List.length_take]
    omega
  have hstep : recvStep e p = RAction.crash := by simp [recvStep, h4]
  refine ⟨hstep, ?_⟩
  cases p with
  | nil => exact absurd rfl hne
  | cons a t => simp [recvLoop, hstep]

theorem C5_amended_witness :
    ([0, 1] : List ℕ) ≠ [] ∧ ([0, 1] : List ℕ).length < 4 ∧
    (recvStep 0 [0, 1] = RAction.crash ∧
      recvLoop 0 0 [] [] [REvent.recvd [0, 1]] = ⟨0, [], [], 0, RecvStatus.crashed⟩) :=
  ⟨by decide, by decide, C5_amended_short_crash [0, 1] 0 0 [] [] [] (by decide) (by decide)⟩

/-- C6 (amended): while `send` waits for an ACK, a received 4-byte string
that is not an ACK for the current sequence number is a no-op (the queue
clear-check runs, nothing is sent, and the wait loop continues on the
remaining events); but received content whose length is not exactly 4
bytes fails `struct.unpack("!HH", ack)`, and the `struct.error` is caught
by neither `except socket.timeout` nor the outer `except socket.error`,
so `send` raises. -/
theorem C6_amended_wait (p : List ℕ) (s : ℕ) (q : List ℚ) (evs : List SEvent)
    (m : List ℕ) (e : ℚ) (a b c d : ℕ) :
    (m.length ≠ 4 →
      waitAck p s q (SEvent.recvd m e :: evs) = ⟨[], q, evs, WaitStatus.err, []⟩) ∧
    (¬ (a * 256 + b = ACK_P ∧ c * 256 + d = s) →
      waitAck p s q (SEvent.recvd [a, b, c, d] e :: evs) =
        waitAck p s (if 5 < q.length then [] else q) evs) := by
  constructor
  · intro hm
    simp [waitAck, unpackHH_eq_none m hm]
  · intro hne
    simp [waitAck, unpackHH, hne]

theorem C6_amended_witness :
    waitAck [] 0 [] [SEvent.recvd [0, 1] 1] = ⟨[], [], [], WaitStatus.err, []⟩ ∧
    waitAck [] 0 [] [SEvent.recvd [0, 0, 0, 1] 1] =
      waitAck [] 0 (if 5 < ([] : List ℚ).length then [] else []) [] :=
  ⟨(C6_amended_wait [] 0 [] [] [0, 1] 1 0 0 0 1).1 (by decide),
    (C6_amended_wait [] 0 [] [] [0, 1] 1 0 0 0 1).2 (by decide)⟩

/-- C7 (amended): a packet whose type field is neither DATA (0) nor
ACK (1) writes nothing to the sink and changes neither the byte count nor
the expected sequence number; if its sequence number equals the expected
one it is dropped with only a log line, but if the sequence number
differs, `recv` sends an ACK echoing that sequence number on the
channel. -/
theorem C7_amended_corrupt_type (exp n : ℕ) (sink : List ℕ) (acks : List (List ℕ))
    (evs : List REvent) (a b c d : ℕ) (rest : List ℕ)
    (h0 : a * 256 + b ≠ DATA_PACKET) (h1 : a * 256 + b ≠ ACK_P) :
    recvLoop exp n sink acks (REvent.recvd (a :: b :: c :: d :: rest) :: evs) =
      (if c * 256 + d = exp then recvLoop exp n sink acks evs
        else recvLoop exp n sink (acks ++ [packHH ACK_P (c * 256 + d)]) evs) := by
  by_cases hsq : c * 256 + d = exp
  · have hstep : recvStep exp (a :: b :: c :: d :: rest) = RAction.dropLog := by
      simp [recvStep, unpackHH, h0, h1, hsq]
    simp [recvLoop, hstep, hsq]
  · have hstep : recvStep exp (a :: b :: c :: d :: rest) =
        RAction.resendAck (packHH ACK_P (c * 256 + d)) := by
      simp [recvStep, unpackHH, h0, h1, hsq]
    simp [recvLoop, hstep, hsq]

theorem C7_amended_witness :
    recvLoop 0 0 [] [] [REvent.recvd [0, 2, 0, 1]] =
      (if 0 * 256 + 1 = 0 then recvLoop 0 0 [] [] []
        else recvLoop 0 0 [] ([] ++ [packHH ACK_P (0 * 256 + 1)]) []) :=
  C7_amended_corrupt_type 0 0 [] [] [] 0 2 0 1 [] (by decide) (by decide)

/-- C8 (amended): the final `else` branch ("Handle packet loss or
corruption") is reachable, and a decodable packet reaches it exactly when
its type field is neither DATA (0) nor ACK (1) and its sequence number
equals the expected one; there `recv` only logs. -/
theorem C8_amended_reachable (exp a b c d : ℕ) (rest : List ℕ) :
    recvStep exp (a :: b :: c :: d :: rest) = RAction.dropLog ↔
      (a * 256 + b ≠ DATA_PACKET ∧ a * 256 + b ≠ ACK_P ∧ c * 256 + d = exp) := by
  simp only [recvStep, unpackHH, List.take_succ_cons, List.take_zero]
  split_ifs with h1 h2 h3 <;> simp_all

/-- C9: a received DATA packet whose sequence number differs from the
expected one makes `recv` resend an ACK carrying that packet's sequence
number while leaving the sink, the accumulated byte count and the
expected sequence number unchanged — the loop continues with the same
state except for the extra ACK on the wire, so a retransmission caused by
a lost ACK never double-delivers payload bytes. -/
theorem C9_dup_data_resend_ack (exp n : ℕ) (sink : List ℕ) (acks : List (List ℕ))
    (evs : List REvent) (a b c d : ℕ) (rest : List ℕ)
    (hdata : a * 256 + b = DATA_PACKET) (hsq : c * 256 + d ≠ exp) :
    recvStep exp (a :: b :: c :: d :: rest) = RAction.resendAck (packHH ACK_P (c * 256 + d)) ∧
    recvLoop exp n sink acks (REvent.recvd (a :: b :: c :: d :: rest) :: evs) =
      recvLoop exp n sink (acks ++ [packHH ACK_P (c * 256 + d)]) evs := by
  have hstep : recvStep exp (a :: b :: c :: d :: rest) =
      RAction.resendAck (packHH ACK_P (c * 256 + d)) := by
    simp [recvStep, unpackHH, hdata, hsq, DATA_PACKET, ACK_P]
  refine ⟨hstep, ?_⟩
  simp [recvLoop, hstep]

theorem C9_witness :
    recvStep 0 [0, 0, 0, 1, 99] = RAction.resendAck (packHH ACK_P (0 * 256 + 1)) ∧
    recvLoop 0 0 [] [] [REvent.recvd [0, 0, 0, 1, 99]] =
      recvLoop 0 0 [] ([] ++ [packHH ACK_P (0 * 256 + 1)]) [] :=
  C9_dup_data_resend_ack 0 0 [] [] [] 0 0 0 1 [99] (by decide) (by decide)

theorem altSeqs_eq (n : ℕ) : ∀ s, s ≤ 1 →
    altSeqs n s = (List.range n).map fun i => (s + i) % 2 := by
  induction n with
  | zero => intro s _; simp [altSeqs]
  | succ m ih =>
      intro s hs
      have h1 : altSeqs (m + 1) s = s :: altSeqs m (1 - s) := rfl
      rw [h1, ih (1 - s) (by omega), List.range_succ_eq_map, List.map_cons, List.map_map]
      have h2 : (fun i => (1 - s + i) % 2) = (fun i => (s + i) % 2) ∘ Nat.succ :=
        funext fun i => by simp only [Function.comp_apply]; omega
      rw [h2]
      congr 1
      omega

theorem sendLoop_lossless (cs : List (List ℕ)) :
    ∀ (s : ℕ) (q : List ℚ), s ≤ 1 →
      (sendLoop s q (losslessTrace cs.length s) cs).result = SendResult.ok ∧
      (sendLoop s q (losslessTrace cs.length s) cs).wire.map (fun p => unpackHH (p.take 4)) =
        (altSeqs cs.length s).map fun sq => some (DATA_PACKET, sq) := by
  induction cs with
  | nil => intro s q _; simp [sendLoop, losslessTrace, altSeqs]
  | cons c cs ih =>
      intro s q hs
      have hup : unpackHH (packHH ACK_P s) = some (ACK_P, s) :=
        unpackHH_packHH ACK_P s (by norm_num [ACK_P]) (by omega)
      have htake : (packHH DATA_PACKET s ++ c).take 4 = packHH DATA_PACKET s := by
        have h4 : (packHH DATA_PACKET s).length = 4 := by simp [packHH, pack16]
        rw [← h4, List.take_left]
      have hup2 : unpackHH (packHH DATA_PACKET s) = some (DATA_PACKET, s) :=
        unpackHH_packHH DATA_PACKET s (by norm_num [DATA_PACKET]) (by omega)
      obtain ⟨ihr, ihw⟩ := ih (1 - s) ((if 5 < q.length then [] else q) ++ [0]) (by omega)
      refine ⟨?_, ?_⟩ <;>
        simp [losslessTrace, sendLoop, waitAck, hup, htake, hup2, altSeqs, ihr, ihw]

/-- C10: in a transfer over a lossless zero-delay channel, the DATA
packets `send` puts on the wire — one per chunk — carry sequence numbers
alternating strictly 0, 1, 0, 1, …: `send` starts at 0 and flips the
sequence bit exactly once per chunk, after the matching ACK. -/
theorem C10_alternation (MAX : ℕ) (data : List ℕ) (q0 : List ℚ) :
    (send MAX data (losslessTrace (sendChunks MAX data).length 0) q0).result =
      SendResult.ok ∧
    (send MAX data (losslessTrace (sendChunks MAX data).length 0) q0).wire.map
        (fun p => unpackHH (p.take 4)) =
      (List.range (sendChunks MAX data).length).map fun i => some (DATA_PACKET, i % 2) := by
  obtain ⟨hr, hw⟩ := sendLoop_lossless (sendChunks MAX data) 0 q0 (by omega)
  refine ⟨hr, ?_⟩
  rw [show send MAX data (losslessTrace (sendChunks MAX data).length 0) q0 =
      sendLoop 0 q0 (losslessTrace (sendChunks MAX data).length 0) (sendChunks MAX data)
      from rfl]
  rw [hw, altSeqs_eq _ 0 (by omega), List.map_map]
  simp [Function.comp]

end SimTCP
